import Mathlib

/-!
Shallow embedding of the TMC5160 demo unit-conversion core
(repository bread-wolf/rts-aw-2022-demos, directory src/tmc5160).

The embedded code is the `Tmc5160` helper class of
src/tmc5160/helpers/Tmc5160_helpers.py together with the shared
Q16.16 encoder-constant arithmetic of src/tmc5160/encoder_config.py
(lines 27-30), which reappears verbatim in `config_encoder`
(Tmc5160_helpers.py lines 54-57 and helpers/config.py lines 54-57).
Python numbers (ints and floats) are modelled as rationals, the
builtin truncating conversion of Python as `pyInt`, and the register-write side
effects as explicit lists of (register, value) pairs; an operation that
can raise models its outcome with `Except`.
-/

namespace TmcSpec

/-- Truncation toward zero on a rational: the semantics of the
builtin Python conversion from a float to an int. -/
def pyInt (q : ℚ) : ℤ := if 0 ≤ q then ⌊q⌋ else ⌈q⌉

theorem pyInt_of_nonneg {q : ℚ} (h : 0 ≤ q) : pyInt q = ⌊q⌋ := if_pos h

theorem pyInt_of_neg {q : ℚ} (h : q < 0) : pyInt q = -⌊-q⌋ := by
  rw [pyInt, if_neg (not_le.mpr h), Int.floor_neg, neg_neg]

/-- Microstep resolver, Tmc5160.__init__ (Tmc5160_helpers.py lines 30-38,
identical in helpers/config.py): 0 maps to 256, 8 maps to 1, any other
code maps to 256 / 2^mres via Python float division. -/
def microstepsOfMres (mres : ℕ) : ℚ :=
  if mres = 0 then 256
  else if mres = 8 then 1
  else 256 / 2 ^ mres

/-- State of a `Tmc5160` helper object that the conversion methods read:
`steps_per_turn`, the clock frequency (stored under the misspelled
attribute name `ckl_freq`), the resolved `microsteps` value, and the
optional stored encoder resolution. -/
structure Tmc5160 where
  steps_per_turn : ℤ
  ckl_freq : ℤ
  microsteps : ℚ
  encoder_tick_per_turn : Option ℤ

/-- Tmc5160.rps_velocity_to_internal_velocity
(Tmc5160_helpers.py lines 117-124): multiplies the rps velocity by
`microsteps * steps_per_turn` and divides by `ckl_freq / 2 / 2^23`,
truncating with the builtin `int` of Python. -/
def rps_velocity_to_internal_velocity (self : Tmc5160) (rps_velocity : ℚ) : ℤ :=
  let mpt : ℚ := self.microsteps * (self.steps_per_turn : ℚ)
  let microstep_velocity : ℚ := rps_velocity * mpt
  pyInt (microstep_velocity / ((self.ckl_freq : ℚ) / 2 / 2 ^ 23))

/-- Tmc5160.rps_acceleration_to_internal_acceleration
(Tmc5160_helpers.py lines 126-129): line 127 computes
`mpt = self.microsteps + self.steps_per_turn`, a SUM, even though its
trailing comment calls it the "microsteps per turn number". -/
def rps_acceleration_to_internal_acceleration (self : Tmc5160) (rps_acceleration : ℚ) : ℤ :=
  let mpt : ℚ := self.microsteps + (self.steps_per_turn : ℚ)
  let microstep_acceleration : ℚ := rps_acceleration * mpt
  pyInt ((microstep_acceleration * 2 ^ 24 * 512 * 256) /
    ((self.ckl_freq : ℚ) * (self.ckl_freq : ℚ)))

/-- Acceleration conversion as the specification states it (spec section 4.3):
floor of `a * (m * s) * 2^24 * 512 * 256 / f^2` with the PRODUCT
multiplier `m * s`. Written from the words of the spec, to be compared
with the `rps_acceleration_to_internal_acceleration` of the source. -/
def specAccelerationConversion (m s f : ℤ) (a : ℚ) : ℤ :=
  ⌊a * ((m : ℚ) * (s : ℚ)) * 2 ^ 24 * 512 * 256 / ((f : ℚ) ^ 2)⌋

/-- Integer part of the encoder constant (encoder_config.py line 29,
Tmc5160_helpers.py line 56): the builtin `int` applied to the constant. -/
def encoder_constant_integer (c : ℚ) : ℤ := pyInt c

/-- Fractional part of the encoder constant (encoder_config.py line 30,
Tmc5160_helpers.py line 57): `int((c - int(c)) / (1 / (1 << 16)))`. -/
def encoder_constant_fraction (c : ℚ) : ℤ :=
  pyInt ((c - (encoder_constant_integer c : ℚ)) / (1 / 2 ^ 16))

/-- Register fields written by `config_encoder`. -/
inductive EncField
  | ENC_SEL_DECIMAL
  | INTEGER
  | FRACTIONAL
  deriving DecidableEq

/-- Python exceptions that `config_encoder` can raise: the explicit
ValueError of lines 44-48, division of an int by zero at line 55, and
division of an int by None at the same line. -/
inductive PyError
  | valueError
  | zeroDivisionError
  | typeError
  deriving DecidableEq

/-- Tmc5160.config_encoder (Tmc5160_helpers.py lines 40-62, identical in
helpers/config.py). Raises ValueError when there is neither a stored
nor a call-time encoder resolution; replaces the stored resolution with
the call-time one only when both are present; then divides
`steps_per_turn * microsteps` by the stored resolution (TypeError when
it is still None, ZeroDivisionError when it is 0) and emits the three
register-field writes. The result carries the write list and the
final stored resolution. The boolean False written to ENC_SEL_DECIMAL
is rendered as the integer 0. -/
def config_encoder (self_steps : ℤ) (self_microsteps : ℚ)
    (stored : Option ℤ) (arg : Option ℤ) :
    Except PyError (List (EncField × ℤ) × Option ℤ) :=
  if stored = none ∧ arg = none then
    .error .valueError
  else
    let stored' : Option ℤ := if stored ≠ none ∧ arg ≠ none then arg else stored
    match stored' with
    | none => .error .typeError
    | some t =>
      if t = 0 then .error .zeroDivisionError
      else
        let c : ℚ := ((self_steps : ℚ) * self_microsteps) / (t : ℚ)
        .ok ([(EncField.ENC_SEL_DECIMAL, 0),
              (EncField.INTEGER, encoder_constant_integer c),
              (EncField.FRACTIONAL, encoder_constant_fraction c)], some t)

/-- Ramp registers written by `config_ramper`. -/
inductive RampReg
  | A1
  | V1
  | D1
  | DMAX
  | VSTART
  | VSTOP
  | AMAX
  | VMAX
  deriving DecidableEq, BEq

/-- Tmc5160.config_ramper (Tmc5160_helpers.py lines 69-111): converts
each of the eight supplied physical values to internal units and writes
the eight ramp registers in the order used by the source, with no range check on
any converted value. -/
def config_ramper (self : Tmc5160)
    (vstart a1 v1 amax vmax dmax d1 vstop : ℚ) : List (RampReg × ℤ) :=
  let vstart_int := rps_velocity_to_internal_velocity self vstart
  let a1_int := rps_acceleration_to_internal_acceleration self a1
  let v1_int := rps_velocity_to_internal_velocity self v1
  let amax_int := rps_acceleration_to_internal_acceleration self amax
  let vmax_int := rps_velocity_to_internal_velocity self vmax
  let dmax_int := rps_acceleration_to_internal_acceleration self dmax
  let d1_int := rps_acceleration_to_internal_acceleration self d1
  let vstop_int := rps_velocity_to_internal_velocity self vstop
  [(RampReg.A1, a1_int), (RampReg.V1, v1_int), (RampReg.D1, d1_int),
   (RampReg.DMAX, dmax_int), (RampReg.VSTART, vstart_int),
   (RampReg.VSTOP, vstop_int), (RampReg.AMAX, amax_int),
   (RampReg.VMAX, vmax_int)]

/-- The profile the demos construct: steps_per_turn = 200,
clk_freq = 12000000, the default microsteps value 256 (mres = 0). -/
def demoProfile : Tmc5160 :=
  { steps_per_turn := 200, ckl_freq := 12000000, microsteps := 256,
    encoder_tick_per_turn := none }

/-- C1: the acceleration conversion of the spec, with the product
multiplier m * s, gives 781 at a = 1 rps^2 on the demo profile, but
the implemented
`rps_acceleration_to_internal_acceleration` multiplies by the sum
256 + 200 = 456 and returns 6; the code disagrees with the claim (and
with its own comments, which call the multiplier the microsteps-per-turn
number). -/
theorem c1_acceleration_sum_vs_product :
    specAccelerationConversion 256 200 12000000 1 = 781 ∧
    rps_acceleration_to_internal_acceleration demoProfile 1 = 6 ∧
    rps_acceleration_to_internal_acceleration demoProfile 1 ≠
      specAccelerationConversion 256 200 12000000 1 := by
  have h1 : specAccelerationConversion 256 200 12000000 1 = 781 := by
    unfold specAccelerationConversion
    norm_num
  have h2 : rps_acceleration_to_internal_acceleration demoProfile 1 = 6 := by
    unfold rps_acceleration_to_internal_acceleration demoProfile pyInt
    norm_num
  exact ⟨h1, h2, by rw [h1, h2]; decide⟩

/-- C2: for every profile with nonnegative microsteps and steps_per_turn
and positive clock frequency, and every nonnegative velocity v in rps,
`rps_velocity_to_internal_velocity` returns
floor((v * m * s) / (f / 2 / 2^23)); on the demo profile at v = 1.5 rps
it returns floor(76800 / (12000000 / 2 / 8388608)) = 107374. -/
theorem c2_velocity_conversion :
    (∀ (self : Tmc5160) (v : ℚ), 0 ≤ v → 0 ≤ self.microsteps →
      0 ≤ self.steps_per_turn → 0 < self.ckl_freq →
      rps_velocity_to_internal_velocity self v =
        ⌊v * self.microsteps * (self.steps_per_turn : ℚ) /
          ((self.ckl_freq : ℚ) / 2 / 2 ^ 23)⌋) ∧
    rps_velocity_to_internal_velocity demoProfile (3 / 2) =
      ⌊(76800 : ℚ) / (12000000 / 2 / 8388608)⌋ ∧
    ⌊(76800 : ℚ) / (12000000 / 2 / 8388608)⌋ = 107374 := by
  have heval : rps_velocity_to_internal_velocity demoProfile (3 / 2) = 107374 := by
    unfold rps_velocity_to_internal_velocity demoProfile pyInt
    norm_num
  refine ⟨?_, ?_, by norm_num⟩
  · intro self v hv hm hs hf
    have hf' : (0 : ℚ) < (self.ckl_freq : ℚ) := by exact_mod_cast hf
    have hs' : (0 : ℚ) ≤ (self.steps_per_turn : ℚ) := by exact_mod_cast hs
    unfold rps_velocity_to_internal_velocity
    rw [pyInt_of_nonneg]
    · congr 1
      ring
    · exact div_nonneg (mul_nonneg hv (mul_nonneg hm hs'))
        (div_nonneg (div_nonneg hf'.le (by norm_num)) (by norm_num))
  · rw [heval]
    norm_num

theorem c2_witness :
    (0 : ℚ) ≤ 3 / 2 ∧
    rps_velocity_to_internal_velocity demoProfile (3 / 2) =
      ⌊(3 / 2 : ℚ) * demoProfile.microsteps * (demoProfile.steps_per_turn : ℚ) /
        ((demoProfile.ckl_freq : ℚ) / 2 / 2 ^ 23)⌋ :=
  ⟨by norm_num,
    c2_velocity_conversion.1 demoProfile (3 / 2) (by norm_num)
      (by norm_num [demoProfile]) (by norm_num [demoProfile])
      (by norm_num [demoProfile])⟩

/-- C3: on the documented range 0-8 the microstep resolver matches the
table: 256 at mres = 0, 1 at mres = 8, and 256 / 2^mres (a value in
the set 128, 64, 32, 16, 8, 4, 2) for mres in 1..7; in particular
mres = 4 gives 16. -/
theorem c3_microstep_resolver_table :
    ∀ mres : ℕ, mres ≤ 8 →
      (mres = 0 → microstepsOfMres mres = 256) ∧
      (mres = 8 → microstepsOfMres mres = 1) ∧
      (1 ≤ mres → mres ≤ 7 → microstepsOfMres mres = 256 / 2 ^ mres ∧
        microstepsOfMres mres ∈ ({128, 64, 32, 16, 8, 4, 2} : Finset ℚ)) ∧
      (mres = 4 → microstepsOfMres mres = 16) := by
  intro mres h
  interval_cases mres <;> norm_num [microstepsOfMres]

theorem c3_witness : microstepsOfMres 4 = 16 :=
  (c3_microstep_resolver_table 4 (by norm_num)).2.2.2 rfl

/-- C4 counterexample: at the out-of-range code mres = 9 the resolver
does not fail; it returns the value 1/2, which is not one of the nine
legitimate microsteps-per-fullstep values. -/
theorem c4_counterexample :
    microstepsOfMres 9 = 1 / 2 ∧
    microstepsOfMres 9 ∉ ({256, 128, 64, 32, 16, 8, 4, 2, 1} : Finset ℚ) := by
  norm_num [microstepsOfMres]

/-- C4 (amended): for every mres outside 0-8 the resolver raises no
error at all; the final branch applies and it returns 256 / 2^mres,
which at mres = 9 is the non-integral value 1/2. -/
theorem c4_out_of_range_returns_value :
    ∀ mres : ℕ, 9 ≤ mres → microstepsOfMres mres = 256 / 2 ^ mres := by
  intro mres h
  rw [microstepsOfMres, if_neg (by omega), if_neg (by omega)]

theorem c4_witness : 9 ≤ 9 ∧ microstepsOfMres 9 = 256 / 2 ^ 9 :=
  ⟨le_refl 9, c4_out_of_range_returns_value 9 (le_refl 9)⟩

theorem encoder_integer_eq_floor {c : ℚ} (hc : 0 ≤ c) :
    encoder_constant_integer c = ⌊c⌋ := pyInt_of_nonneg hc

theorem encoder_fraction_eq_floor {c : ℚ} (hc : 0 ≤ c) :
    encoder_constant_fraction c = ⌊(c - ⌊c⌋) * 65536⌋ := by
  unfold encoder_constant_fraction encoder_constant_integer
  rw [pyInt_of_nonneg hc]
  have he : (c - (⌊c⌋ : ℚ)) / (1 / 2 ^ 16) = (c - (⌊c⌋ : ℚ)) * 65536 := by
    rw [div_div_eq_mul_div, div_one]
    norm_num
  rw [he, pyInt_of_nonneg (mul_nonneg (sub_nonneg.mpr (Int.floor_le c)) (by norm_num))]

/-- C5: for every nonnegative encoder constant the implemented Q16.16
encoding is integer part floor(c) and fractional part
floor((c - floor(c)) * 65536); the demo inputs 200, 256, 10000 give
constant 5.12 = 128/25, integer part 5 and fractional part 7864. -/
theorem c5_q16_encoding :
    (∀ c : ℚ, 0 ≤ c →
      encoder_constant_integer c = ⌊c⌋ ∧
      encoder_constant_fraction c = ⌊(c - ⌊c⌋) * 65536⌋) ∧
    (200 : ℚ) * 256 / 10000 = 128 / 25 ∧
    encoder_constant_integer ((200 : ℚ) * 256 / 10000) = 5 ∧
    encoder_constant_fraction ((200 : ℚ) * 256 / 10000) = 7864 := by
  refine ⟨fun c hc => ⟨encoder_integer_eq_floor hc, encoder_fraction_eq_floor hc⟩,
    by norm_num, ?_, ?_⟩
  · rw [encoder_integer_eq_floor (by norm_num)]
    norm_num
  · rw [encoder_fraction_eq_floor (by norm_num)]
    norm_num

theorem c5_witness :
    (0 : ℚ) ≤ 128 / 25 ∧
    encoder_constant_integer (128 / 25) = ⌊(128 / 25 : ℚ)⌋ ∧
    encoder_constant_fraction (128 / 25) =
      ⌊((128 / 25 : ℚ) - ⌊(128 / 25 : ℚ)⌋) * 65536⌋ :=
  ⟨by norm_num, (c5_q16_encoding.1 (128 / 25) (by norm_num)).1,
    (c5_q16_encoding.1 (128 / 25) (by norm_num)).2⟩

/-- C9: for every encoder constant in (0, 65536), decoding the Q16.16
encoding as integer + fractional / 65536 reproduces the constant within
1/65536 absolute error. -/
theorem c9_roundtrip_error_bound :
    ∀ c : ℚ, 0 < c → c < 65536 →
      |c - ((encoder_constant_integer c : ℚ) +
        (encoder_constant_fraction c : ℚ) / 65536)| < 1 / 65536 := by
  intro c hc _
  rw [encoder_integer_eq_floor hc.le, encoder_fraction_eq_floor hc.le]
  have h0 : (0 : ℚ) ≤ (c - ⌊c⌋) * 65536 - ⌊(c - ⌊c⌋) * 65536⌋ :=
    sub_nonneg.mpr (Int.floor_le _)
  have h1 : (c - ⌊c⌋) * 65536 - ⌊(c - ⌊c⌋) * 65536⌋ < 1 := by
    have := Int.lt_floor_add_one ((c - ⌊c⌋) * 65536)
    linarith
  have key : c - ((⌊c⌋ : ℚ) + (⌊(c - ⌊c⌋) * 65536⌋ : ℚ) / 65536) =
      ((c - ⌊c⌋) * 65536 - ⌊(c - ⌊c⌋) * 65536⌋) / 65536 := by
    ring
  rw [key, abs_of_nonneg (div_nonneg h0 (by norm_num)),
    div_lt_div_iff₀ (by norm_num) (by norm_num)]
  nlinarith [h1]

theorem c9_witness :
    |(128 / 25 : ℚ) - ((encoder_constant_integer (128 / 25) : ℚ) +
      (encoder_constant_fraction (128 / 25) : ℚ) / 65536)| < 1 / 65536 :=
  c9_roundtrip_error_bound (128 / 25) (by norm_num) (by norm_num)

theorem config_encoder_stored_some (steps : ℤ) (micro : ℚ) {t : ℤ} (ht : t ≠ 0) :
    config_encoder steps micro (some t) none =
      .ok ([(EncField.ENC_SEL_DECIMAL, 0),
            (EncField.INTEGER, encoder_constant_integer ((steps : ℚ) * micro / (t : ℚ))),
            (EncField.FRACTIONAL,
              encoder_constant_fraction ((steps : ℚ) * micro / (t : ℚ)))],
        some t) := by
  have h0 : config_encoder steps micro (some t) none =
      if t = 0 then Except.error PyError.zeroDivisionError
      else Except.ok ([(EncField.ENC_SEL_DECIMAL, 0),
            (EncField.INTEGER, encoder_constant_integer ((steps : ℚ) * micro / (t : ℚ))),
            (EncField.FRACTIONAL,
              encoder_constant_fraction ((steps : ℚ) * micro / (t : ℚ)))],
        some t) := rfl
  rw [h0, if_neg ht]

/-- C6 counterexample: constructed with stored encoder resolution -5
(steps 200, microsteps 256), config_encoder does not fail: it performs
all three register writes, putting -10240 in the integer field and 0 in
the fractional field. -/
theorem c6_counterexample :
    config_encoder 200 256 (some (-5)) none =
      .ok ([(EncField.ENC_SEL_DECIMAL, 0), (EncField.INTEGER, -10240),
        (EncField.FRACTIONAL, 0)], some (-5)) := by
  rw [config_encoder_stored_some 200 256 (by norm_num)]
  have hc : ((200 : ℤ) : ℚ) * 256 / ((-5 : ℤ) : ℚ) = -10240 := by norm_num
  rw [hc]
  have hi : encoder_constant_integer (-10240) = -10240 := by
    unfold encoder_constant_integer
    rw [pyInt_of_neg (by norm_num)]
    norm_num
  have hf : encoder_constant_fraction (-10240) = 0 := by
    unfold encoder_constant_fraction
    rw [hi]
    norm_num [pyInt]
  rw [hi, hf]

/-- C6 (amended): with stored encoder resolution 0 the operation fails
with a division-by-zero error (not an InvalidEncoderResolution error)
before any register write; with any nonzero stored resolution, negative
ones included, it does not fail and performs the three register writes
computed from that resolution. -/
theorem c6_nonpositive_resolution_behavior :
    ∀ (steps : ℤ) (micro : ℚ) (t : ℤ),
      config_encoder steps micro (some 0) none = .error .zeroDivisionError ∧
      (t ≠ 0 →
        config_encoder steps micro (some t) none =
          .ok ([(EncField.ENC_SEL_DECIMAL, 0),
                (EncField.INTEGER, encoder_constant_integer ((steps : ℚ) * micro / (t : ℚ))),
                (EncField.FRACTIONAL,
                  encoder_constant_fraction ((steps : ℚ) * micro / (t : ℚ)))],
            some t)) :=
  fun steps micro t => ⟨rfl, fun ht => config_encoder_stored_some steps micro ht⟩

theorem c6_witness :
    (-5 : ℤ) ≠ 0 ∧
    config_encoder 200 256 (some (-5)) none =
      .ok ([(EncField.ENC_SEL_DECIMAL, 0),
            (EncField.INTEGER, encoder_constant_integer (((200 : ℤ) : ℚ) * 256 / (((-5 : ℤ)) : ℚ))),
            (EncField.FRACTIONAL,
              encoder_constant_fraction (((200 : ℤ) : ℚ) * 256 / (((-5 : ℤ)) : ℚ)))],
        some (-5)) :=
  ⟨by norm_num, (c6_nonpositive_resolution_behavior 200 256 (-5)).2 (by norm_num)⟩

/-- C7 counterexample: on the demo profile, vmax = 200 rps converts to
the internal value 14316557, above the 23-bit bound 8388607, and
config_ramper still hands exactly this value to the VMAX register write
with no failure and no truncation. -/
theorem c7_counterexample :
    rps_velocity_to_internal_velocity demoProfile 200 = 14316557 ∧
    (2 ^ 23 - 1 : ℤ) < 14316557 ∧
    (config_ramper demoProfile (1 / 20) 100 (7 / 10) 70 200 60 90 (1 / 20)).lookup
      RampReg.VMAX = some 14316557 := by
  have hv : rps_velocity_to_internal_velocity demoProfile 200 = 14316557 := by
    unfold rps_velocity_to_internal_velocity demoProfile pyInt
    norm_num
  refine ⟨hv, by norm_num, ?_⟩
  have hl : (config_ramper demoProfile (1 / 20) 100 (7 / 10) 70 200 60 90 (1 / 20)).lookup
      RampReg.VMAX = some (rps_velocity_to_internal_velocity demoProfile 200) := rfl
  rw [hl, hv]

/-- C7 (amended): config_ramper performs no range check at all: even
when a converted internal velocity exceeds the 23-bit register bound,
no RegisterOverflow error is raised and the out-of-range integer is
handed to the VMAX register write unchanged (not truncated). -/
theorem c7_overflow_written_unchecked :
    ∀ (self : Tmc5160) (vstart a1 v1 amax vmax dmax d1 vstop : ℚ),
      2 ^ 23 - 1 < rps_velocity_to_internal_velocity self vmax →
      (config_ramper self vstart a1 v1 amax vmax dmax d1 vstop).lookup RampReg.VMAX =
        some (rps_velocity_to_internal_velocity self vmax) := by
  intro self vstart a1 v1 amax vmax dmax d1 vstop _
  rfl

theorem c7_witness :
    2 ^ 23 - 1 < rps_velocity_to_internal_velocity demoProfile 200 ∧
    (config_ramper demoProfile 0 0 0 0 200 0 0 0).lookup RampReg.VMAX =
      some (rps_velocity_to_internal_velocity demoProfile 200) := by
  have h : (2 ^ 23 - 1 : ℤ) < rps_velocity_to_internal_velocity demoProfile 200 := by
    unfold rps_velocity_to_internal_velocity demoProfile pyInt
    norm_num
  exact ⟨h, c7_overflow_written_unchecked demoProfile 0 0 0 0 200 0 0 0 h⟩

/-- C8: every call to config_ramper emits exactly eight register writes,
and each ramp register receives the conversion of its corresponding
supplied parameter: velocities through the velocity conversion,
accelerations through the acceleration conversion. -/
theorem c8_ramper_writes_all_eight :
    ∀ (self : Tmc5160) (vstart a1 v1 amax vmax dmax d1 vstop : ℚ),
      (config_ramper self vstart a1 v1 amax vmax dmax d1 vstop).length = 8 ∧
      (config_ramper self vstart a1 v1 amax vmax dmax d1 vstop).lookup RampReg.VSTART =
        some (rps_velocity_to_internal_velocity self vstart) ∧
      (config_ramper self vstart a1 v1 amax vmax dmax d1 vstop).lookup RampReg.V1 =
        some (rps_velocity_to_internal_velocity self v1) ∧
      (config_ramper self vstart a1 v1 amax vmax dmax d1 vstop).lookup RampReg.VMAX =
        some (rps_velocity_to_internal_velocity self vmax) ∧
      (config_ramper self vstart a1 v1 amax vmax dmax d1 vstop).lookup RampReg.VSTOP =
        some (rps_velocity_to_internal_velocity self vstop) ∧
      (config_ramper self vstart a1 v1 amax vmax dmax d1 vstop).lookup RampReg.A1 =
        some (rps_acceleration_to_internal_acceleration self a1) ∧
      (config_ramper self vstart a1 v1 amax vmax dmax d1 vstop).lookup RampReg.AMAX =
        some (rps_acceleration_to_internal_acceleration self amax) ∧
      (config_ramper self vstart a1 v1 amax vmax dmax d1 vstop).lookup RampReg.D1 =
        some (rps_acceleration_to_internal_acceleration self d1) ∧
      (config_ramper self vstart a1 v1 amax vmax dmax d1 vstop).lookup RampReg.DMAX =
        some (rps_acceleration_to_internal_acceleration self dmax) :=
  fun self vstart a1 v1 amax vmax dmax d1 vstop =>
    ⟨rfl, rfl, rfl, rfl, rfl, rfl, rfl, rfl, rfl⟩

/-- C10: config_encoder always computes from the stored resolution:
when the object was constructed without one, a call-time value is never
used (the call fails with a TypeError on the division by None for every
supplied value), and when a stored value is present a call-time value
replaces it, making the call behave exactly as if that value had been
stored. -/
theorem c10_call_time_argument_handling :
    ∀ (steps : ℤ) (micro : ℚ) (t s t' : ℤ),
      config_encoder steps micro none (some t) = .error .typeError ∧
      config_encoder steps micro (some s) (some t') =
        config_encoder steps micro (some t') (some t') :=
  fun steps micro t s t' => ⟨rfl, rfl⟩

end TmcSpec
